import Mathlib

/-!
# Verification of the topmate-booking-service core

Shallow embedding of the candidate-qualification, slot-matching and
orchestration logic of the repository, with theorems settling the
specification claims.

Sources embedded:
* `src/unnamed/part_003` (`TopmateAPI.filterCandidateServices`,
  `TopmateAPI.getRoleVariations`);
* `src/src/services/bookingService.ts` (`BookingService.bookCallsForUser`,
  `BookingService.attemptBooking`, `BookingService.findMatchingSlot`);
* `src/src/index.ts` (`BookingRequestSchema`, the `/api/book-topmate-calls`
  handler).
-/

/-! ## String machinery

JavaScript string operations used by the source: `String.prototype.includes`
(substring containment) and `String.prototype.toLowerCase` (the inputs in
play are ASCII, so ASCII lowercasing is the faithful rendering).
-/

/-- `listStartsWith hay needle`: `needle` occurs at the start of `hay`. -/
def listStartsWith : List Char → List Char → Bool
  | _, [] => true
  | [], _ :: _ => false
  | a :: as, b :: bs => a == b && listStartsWith as bs

/-- `hasSub needle hay`: `needle` occurs contiguously somewhere in `hay`. -/
def hasSub (needle : List Char) : List Char → Bool
  | [] => listStartsWith [] needle
  | c :: t => listStartsWith (c :: t) needle || hasSub needle t

/-- JavaScript `hay.includes(needle)`. -/
def strIncludes (hay needle : String) : Bool :=
  hasSub needle.data hay.data

/-- JavaScript `s.toLowerCase()` on ASCII data. -/
def lowerStr (s : String) : String :=
  ⟨s.data.map Char.toLower⟩

/-! ## Data model (`src/unnamed/part_003`, interface `TopmateUserProfile`) -/

/-- One entry of `TopmateUserProfile.services`. -/
structure Service where
  id : Nat
  title : String
  charge : Int
  currency : String
  type : String
  duration : Option Nat
deriving Repr, DecidableEq

/-- `TopmateUserProfile` (the `id`, `username` fields are unused by the
qualification logic but kept for faithfulness). -/
structure TopmateUserProfile where
  id : Nat
  username : String
  name : String
  headline : String
  bio : String
  services : List Service
deriving Repr, DecidableEq

/-- The record shape `filterCandidateServices` maps each kept service to. -/
structure QualService where
  serviceId : Nat
  serviceTitle : String
  charge : Int
  currency : String
  type : String
  duration : Option Nat
deriving Repr, DecidableEq

/-! ## QualificationEngine (`TopmateAPI` in `src/unnamed/part_003`) -/

/-- The static role-synonym table `roleMap` of `getRoleVariations`
(JavaScript object literals iterate string keys in insertion order). -/
def roleMap : List (String × List String) :=
  [("product manager", ["product manager", "pm", "product lead", "product owner"]),
   ("software engineer", ["software engineer", "swe", "developer", "programmer", "engineer"]),
   ("designer", ["designer", "ux designer", "ui designer", "product designer"]),
   ("data scientist", ["data scientist", "data analyst", "ml engineer", "data engineer"]),
   ("marketing", ["marketing", "marketer", "growth", "marketing manager"])]

/-- `TopmateAPI.getRoleVariations`: first `roleMap` entry whose key is a
substring of the lowercased role, or one of whose variations is a substring
of the lowercased role, wins; otherwise the literal role is returned. -/
def getRoleVariations (role : String) : List String :=
  let normalizedRole := lowerStr role
  match roleMap.find? (fun kv =>
      strIncludes normalizedRole kv.1 ||
      kv.2.any (fun v => strIncludes normalizedRole v)) with
  | some kv => kv.2
  | none => [role]

/-- The concatenated lowercased profile text
`` `${name} ${headline} ${bio}`.toLowerCase() ``. -/
def profileTextOf (p : TopmateUserProfile) : String :=
  lowerStr (p.name ++ " " ++ p.headline ++ " " ++ p.bio)

/-- `companyMatch` of `filterCandidateServices`. -/
def companyMatch (p : TopmateUserProfile) (targetCompany : String) : Bool :=
  strIncludes (profileTextOf p) (lowerStr targetCompany)

/-- `roleMatch` of `filterCandidateServices`. -/
def roleMatch (p : TopmateUserProfile) (targetRole : String) : Bool :=
  (getRoleVariations targetRole).any fun variation =>
    strIncludes (profileTextOf p) (lowerStr variation)

/-- `isCallType` inside the service filter of `filterCandidateServices`. -/
def isCallType (t : String) : Bool :=
  strIncludes (lowerStr t) "meeting" || strIncludes (lowerStr t) "call" ||
  strIncludes (lowerStr t) "video" || strIncludes (lowerStr t) "chat"

/-- The body of the service filter callback: price gate then type gate. -/
def serviceQualifies (maxPrice : Int) (s : Service) : Bool :=
  !(s.charge > maxPrice) && isCallType s.type

/-- The final `.map` of `filterCandidateServices`. -/
def toQualService (s : Service) : QualService :=
  ⟨s.id, s.title, s.charge, s.currency, s.type, s.duration⟩

/-- `TopmateAPI.filterCandidateServices`. -/
def filterCandidateServices (userProfile : TopmateUserProfile)
    (targetCompany targetRole : String) (maxPrice : Int) : List QualService :=
  if !companyMatch userProfile targetCompany || !roleMatch userProfile targetRole then
    []
  else
    ((userProfile.services.filter (serviceQualifies maxPrice)).map toQualService)

/-! ## Data model of `src/src/services/bookingService.ts` -/

/-- Interface `AvailabilityWindow` (field `end` is a Lean keyword and is
rendered `endTime`). -/
structure AvailabilityWindow where
  days : List String
  start : String
  endTime : String
  timezone : String
deriving Repr, DecidableEq

/-- Interface `BookingOptions` (also the shape of a parsed booking request,
after the schema defaults of `src/src/index.ts` are applied). -/
structure BookingOptions where
  target_company : String
  target_role : String
  num_calls : Nat
  max_price : Int
  availability : List AvailabilityWindow
deriving Repr, DecidableEq

/-- One element of the array `extractAvailableSlots` returns. -/
structure Slot where
  selector : String
  datetime : String
  utc : String
deriving Repr, DecidableEq

/-- One element of the array `extractSearchResults` returns. -/
structure Expert where
  username : String
  profileUrl : String
  name : String
  description : String
deriving Repr, DecidableEq

/-- One entry of `BookingResult.errors`. -/
structure SkipEntry where
  username : String
  reason : String
deriving Repr, DecidableEq

/-- The object `attemptBooking` returns on success. -/
structure Booking where
  expert_username : String
  expert_name : String
  expert_title : String
  session_price : Int
  currency : String
  service_title : String
  time_user_tz : String
  time_utc : String
  topmate_profile_url : String
  topmate_booking_url : Option String
deriving Repr, DecidableEq

/-! ## SlotMatcher (`BookingService.findMatchingSlot`) -/

/-- `BookingService.findMatchingSlot`.  The source body is
`return availableSlots[0] || null;` — the two remaining parameters are
received but never read (the in-source comment calls this a placeholder for
the timezone-aware availability check). -/
def findMatchingSlot (availableSlots : List Slot)
    (_userAvailability : List AvailabilityWindow)
    (_expertTimezone : String) : Option Slot :=
  availableSlots.head?

/-! ## BookingOrchestrator (`BookingService.bookCallsForUser`)

The external collaborators (profile API, browser navigation, slot
extraction, form submission) are modelled as oracle functions in an
environment record; `attempt` stands for the whole of `attemptBooking`,
whose every failure mode — navigation error, no matching slot, submission
error — ends in `return null` (the `catch` arm or the `!matchingSlot`
arm). The run state carries `trace`, the instrumentation list of usernames
for which `fetchUserProfile` was invoked, in call order.
-/

/-- Oracles for the external calls of one orchestration run. -/
structure OrchestratorEnv where
  fetchProfile : String → Option TopmateUserProfile
  attempt : Expert → TopmateUserProfile → QualService → List AvailabilityWindow → Option Booking

/-- Mutable state of the `for` loop of `bookCallsForUser`, plus the
`trace` instrumentation (profile-fetch calls, in order). -/
structure RunState where
  booked : Nat
  bookings : List Booking
  errors : List SkipEntry
  trace : List String
deriving Repr, DecidableEq

/-- One iteration of the `for (const expert of searchResults)` loop.  The
source breaks out of the loop when `result.booked >= options.num_calls`;
since `booked` never decreases, the break is rendered as a guard making
every later iteration a no-op, which yields the same final state. -/
def processExpert (env : OrchestratorEnv) (options : BookingOptions)
    (st : RunState) (expert : Expert) : RunState :=
  if options.num_calls ≤ st.booked then st
  else
    let st := { st with trace := st.trace ++ [expert.username] }
    match env.fetchProfile expert.username with
    | none =>
        { st with errors := st.errors ++ [⟨expert.username, "Failed to fetch profile"⟩] }
    | some profile =>
        match filterCandidateServices profile options.target_company
            options.target_role options.max_price with
        | [] =>
            { st with errors := st.errors ++ [⟨expert.username, "No qualifying services found"⟩] }
        | serviceToBook :: _ =>
            match env.attempt expert profile serviceToBook options.availability with
            | none => st
            | some b =>
                { st with booked := st.booked + 1, bookings := st.bookings ++ [b] }

/-- The candidate loop of `bookCallsForUser`, starting from a given state. -/
def runFrom (env : OrchestratorEnv) (options : BookingOptions)
    (st : RunState) (searchResults : List Expert) : RunState :=
  searchResults.foldl (processExpert env options) st

/-- `BookingService.bookCallsForUser`: the result accumulation over the
search results (the search step itself is the external input
`searchResults`). -/
def bookCallsForUser (env : OrchestratorEnv) (options : BookingOptions)
    (searchResults : List Expert) : RunState :=
  runFrom env options ⟨0, [], [], []⟩ searchResults

/-! ## Request validation (`src/src/index.ts`) -/

/-- Membership in the `z.enum` day list (Mon through Sun). -/
def isValidDay (d : String) : Bool :=
  ["Mon", "Tue", "Wed", "Thu", "Fri", "Sat", "Sun"].contains d

/-- The regex `^\d\x7b2\x7d:\d\x7b2\x7d$` of the schema: exactly two digits,
a colon, two digits. -/
def isTimeFormat (s : String) : Bool :=
  match s.data with
  | [h1, h2, c, m1, m2] => h1.isDigit && h2.isDigit && c == ':' && m1.isDigit && m2.isDigit
  | _ => false

/-- The per-window object schema inside `BookingRequestSchema`. -/
def validWindow (w : AvailabilityWindow) : Bool :=
  w.days.all isValidDay && isTimeFormat w.start && isTimeFormat w.endTime

/-- `BookingRequestSchema.safeParse` succeeding on a request (the request is
modelled post-default, so `num_calls`/`max_price` are present). -/
def validBookingRequest (r : BookingOptions) : Bool :=
  decide (1 ≤ r.target_company.length) && decide (1 ≤ r.target_role.length) &&
  decide (1 ≤ r.num_calls) && decide (0 ≤ r.max_price) &&
  decide (1 ≤ r.availability.length) && r.availability.all validWindow

/-- Outcome of the `/api/book-topmate-calls` handler: a 400 validation
error, or a completed run. -/
inductive HandlerResult where
  | validationError
  | run (outcome : RunState)
deriving Repr, DecidableEq

/-- The `/api/book-topmate-calls` handler: `safeParse` first; on failure a
400 `VALIDATION_ERROR` response before the `BookingService` is even
constructed; on success the orchestration run (the search results being the
external search input). -/
def handleBookingRequest (env : OrchestratorEnv) (searchResults : List Expert)
    (r : BookingOptions) : HandlerResult :=
  if validBookingRequest r then
    .run (bookCallsForUser env r searchResults)
  else
    .validationError

/-! ## TimeResolver, modelled from the spec

`TimeResolver.isInstantWithinAnyWindow` is nowhere implemented in the
repository: `findMatchingSlot` (src/src/services/bookingService.ts:241-253)
names the check in a comment but returns the first slot unconditionally.
The definitions below model the missing component from the spec so that its
contracted behaviour can be stated.
-/

/-- A local date-time: day-of-week name plus minute-of-day. -/
structure LocalDateTime where
  day : String
  minutes : Nat
deriving Repr, DecidableEq

/-- Modelled from the spec: an instant is a timezone-aware point in time;
what the window check consumes is its local rendering per timezone, so an
instant is modelled by that rendering (timezone name → local day and
minute-of-day), real timezone-database semantics being external. -/
def Instant : Type := String → LocalDateTime

/-- Minute-of-day denoted by a `"HH:MM"` time-of-day string. -/
def parseHM (s : String) : Nat :=
  match s.data with
  | [h1, h2, _, m1, m2] =>
      ((h1.toNat - 48) * 10 + (h2.toNat - 48)) * 60 + ((m1.toNat - 48) * 10 + (m2.toNat - 48))
  | _ => 0

/-- Modelled from the spec: an instant qualifies against a window if its
day-of-week in the timezone of the window is in the day set of the window and its
local time-of-day lies in the half-open interval from `start` to `end`. -/
def isInstantWithinWindow (instant : Instant) (w : AvailabilityWindow) : Bool :=
  let l := instant w.timezone
  w.days.contains l.day &&
  (parseHM w.start ≤ l.minutes && l.minutes < parseHM w.endTime)

/-- Modelled from the spec: `TimeResolver.isInstantWithinAnyWindow` — the
windows form a union, any window matching is sufficient. -/
def isInstantWithinAnyWindow (instant : Instant) (windows : List AvailabilityWindow) : Bool :=
  windows.any (isInstantWithinWindow instant)

/-! ## Concrete fixtures used by witnesses and counterexamples -/

/-- Fixture: a profile qualifying against company "Netflix", role
"Product Manager", with one free live service. -/
def qualifiedProfile : TopmateUserProfile :=
  ⟨1, "kim", "Ava", "Netflix PM", "", [⟨1, "Intro Call", 0, "USD", "video meeting", some 30⟩]⟩

/-- Fixture: a profile failing the company criterion for "Netflix". -/
def mismatchProfile : TopmateUserProfile :=
  ⟨2, "bob", "Bob", "Google PM", "", [⟨3, "Intro Call", 0, "USD", "video meeting", some 30⟩]⟩

/-- Fixture: a profile matching the criteria but offering only a
document-type service, so no service passes the live-type filter. -/
def docOnlyProfile : TopmateUserProfile :=
  ⟨3, "cat", "Cat", "Netflix PM", "", [⟨5, "Doc Review", 0, "USD", "document", none⟩]⟩

/-- Fixture: the search-result entry for username "kim". -/
def kimExpert : Expert := ⟨"kim", "https://topmate.io/kim", "Kim", ""⟩

/-- Fixture: booking options targeting Netflix product managers, one call,
free only, one Monday window. -/
def sampleOptions : BookingOptions :=
  ⟨"Netflix", "Product Manager", 1, 0, [⟨["Mon"], "09:00", "17:00", "UTC"⟩]⟩

/-! ## Helper lemmas -/

/-- The price gate of the service filter, written with `≤`. -/
theorem serviceQualifies_eq (m : Int) (s : Service) :
    serviceQualifies m s = (decide (s.charge ≤ m) && isCallType s.type) := by
  unfold serviceQualifies
  rcases le_or_lt s.charge m with h | h
  · simp [h, not_lt.mpr h]
  · simp [h, not_le.mpr h]

/-- Once the booked count has reached the target, every remaining loop
iteration is a no-op. -/
theorem runFrom_saturated (env : OrchestratorEnv) (options : BookingOptions) :
    ∀ (l : List Expert) (st : RunState), options.num_calls ≤ st.booked →
      runFrom env options st l = st := by
  intro l
  induction l with
  | nil => intro st _; rfl
  | cons e t ih =>
      intro st h
      rw [runFrom, List.foldl_cons]
      have hpe : processExpert env options st e = st := by
        unfold processExpert
        rw [if_pos h]
      rw [hpe]
      exact ih st h

/-- When every booking attempt fails, the loop fetches one profile per
search-result entry, in order, and the booked count never moves. -/
theorem runFrom_all_attempts_fail (env : OrchestratorEnv) (options : BookingOptions)
    (hA : ∀ e p s a, env.attempt e p s a = none) :
    ∀ (l : List Expert) (st : RunState), st.booked < options.num_calls →
      (runFrom env options st l).trace = st.trace ++ l.map (fun e => e.username) ∧
      (runFrom env options st l).booked = st.booked := by
  intro l
  induction l with
  | nil => intro st _; simp [runFrom]
  | cons e t ih =>
      intro st h
      have hpe : (processExpert env options st e).booked = st.booked ∧
          (processExpert env options st e).trace = st.trace ++ [e.username] := by
        unfold processExpert
        rw [if_neg (Nat.not_le.mpr h)]
        cases hf : env.fetchProfile e.username with
        | none => simp
        | some profile =>
            cases hq : filterCandidateServices profile options.target_company
                options.target_role options.max_price with
            | nil => simp [hq]
            | cons s ss => simp [hq, hA]
      have hlt : (processExpert env options st e).booked < options.num_calls := by
        rw [hpe.1]; exact h
      have ht := ih (processExpert env options st e) hlt
      rw [runFrom, List.foldl_cons]
      refine ⟨?_, ?_⟩
      · show (runFrom env options (processExpert env options st e) t).trace = _
        rw [ht.1, hpe.2, List.append_assoc]
        rfl
      · show (runFrom env options (processExpert env options st e) t).booked = _
        rw [ht.2, hpe.1]

/-! ## Claim theorems -/

/-- Claim C10: `findMatchingSlot` is insensitive to the availability
windows and the expert timezone — for a fixed slot list it returns the same
result for any two window lists and any two timezones, namely the first
slot of the list (or `none` on the empty list). -/
theorem findMatchingSlot_ignores_availability (slots : List Slot)
    (w1 w2 : List AvailabilityWindow) (tz1 tz2 : String) :
    findMatchingSlot slots w1 tz1 = findMatchingSlot slots w2 tz2 ∧
    findMatchingSlot slots w1 tz1 = slots.head? :=
  ⟨rfl, rfl⟩

/-- Claim C1 (divergence witness): with an empty window list no slot lies
within any availability window, so the claimed behaviour is `none`; the
code nevertheless returns the first slot unconditionally, as its own
comment concedes (`findMatchingSlot` is a placeholder). -/
theorem findMatchingSlot_returns_first_despite_no_window :
    findMatchingSlot [⟨".slot-time:nth-of-type(1)", "Tue 03:00", "2026-01-06T03:00:00Z"⟩]
        [] "UTC" =
      some ⟨".slot-time:nth-of-type(1)", "Tue 03:00", "2026-01-06T03:00:00Z"⟩ ∧
    isInstantWithinAnyWindow (fun _ => ⟨"Tue", 180⟩) [] = false :=
  ⟨rfl, rfl⟩

/-- Claim C5: the orchestrator processes candidates in the order received
and stops as soon as the booked count reaches the requested number of
calls — whenever the run over a prefix already meets the target, appending
further candidates changes nothing: no further profile fetch (trace),
skip entry or booking occurs. -/
theorem bookCalls_stops_at_target (env : OrchestratorEnv) (options : BookingOptions)
    (l1 l2 : List Expert)
    (h : options.num_calls ≤ (bookCallsForUser env options l1).booked) :
    bookCallsForUser env options (l1 ++ l2) = bookCallsForUser env options l1 := by
  unfold bookCallsForUser runFrom
  rw [List.foldl_append]
  exact runFrom_saturated env options l2 _ h

/-- Claim C5 witness: one booking, target one call; a second candidate in
the list is never touched. -/
theorem bookCalls_stops_at_target_witness :
    sampleOptions.num_calls ≤
      (bookCallsForUser
        ⟨fun _ => some qualifiedProfile,
         fun _ _ _ _ => some ⟨"kim", "Ava", "", 0, "USD", "Intro Call", "", "", "", none⟩⟩
        sampleOptions [kimExpert]).booked ∧
    bookCallsForUser
        ⟨fun _ => some qualifiedProfile,
         fun _ _ _ _ => some ⟨"kim", "Ava", "", 0, "USD", "Intro Call", "", "", "", none⟩⟩
        sampleOptions
        ([kimExpert] ++ [⟨"lee", "https://topmate.io/lee", "Lee", ""⟩]) =
      bookCallsForUser
        ⟨fun _ => some qualifiedProfile,
         fun _ _ _ _ => some ⟨"kim", "Ava", "", 0, "USD", "Intro Call", "", "", "", none⟩⟩
        sampleOptions [kimExpert] :=
  ⟨by decide,
   bookCalls_stops_at_target
     ⟨fun _ => some qualifiedProfile,
      fun _ _ _ _ => some ⟨"kim", "Ava", "", 0, "USD", "Intro Call", "", "", "", none⟩⟩
     sampleOptions [kimExpert] [⟨"lee", "https://topmate.io/lee", "Lee", ""⟩]
     (by decide)⟩

/-- Claim C6: a profile yields a nonempty qualification result only when
both the company match (case-insensitive substring of the target company in
the space-joined concatenation of name, headline and bio) and the role
match succeed, and when both succeed the returned services are exactly the
services of the profile with price at most `maxPrice` and a live type
(meeting/call/video/chat substring of the type), in original order. -/
theorem filterCandidateServices_spec (p : TopmateUserProfile) (c r : String) (m : Int) :
    (filterCandidateServices p c r m ≠ [] →
      companyMatch p c = true ∧ roleMatch p r = true) ∧
    (companyMatch p c = true → roleMatch p r = true →
      filterCandidateServices p c r m =
        (p.services.filter fun s => decide (s.charge ≤ m) && isCallType s.type).map
          toQualService) := by
  constructor
  · intro hne
    constructor
    · cases hc : companyMatch p c with
      | true => rfl
      | false =>
          exact absurd (by unfold filterCandidateServices; rw [hc]; rfl) hne
    · cases hr : roleMatch p r with
      | true => rfl
      | false =>
          refine absurd ?_ hne
          unfold filterCandidateServices
          rw [hr]
          cases companyMatch p c <;> rfl
  · intro hc hr
    unfold filterCandidateServices
    rw [hc, hr]
    have hfn : serviceQualifies m = fun s => decide (s.charge ≤ m) && isCallType s.type :=
      funext fun s => serviceQualifies_eq m s
    rw [hfn]
    rfl

/-- Claim C6 witness: a concrete qualifying profile, with the document
service filtered out and the live one kept. -/
theorem filterCandidateServices_spec_witness :
    (companyMatch qualifiedProfile "Netflix" = true ∧
      roleMatch qualifiedProfile "Product Manager" = true) ∧
    filterCandidateServices qualifiedProfile "Netflix" "Product Manager" 0 =
      [⟨1, "Intro Call", 0, "USD", "video meeting", some 30⟩] :=
  ⟨(filterCandidateServices_spec qualifiedProfile "Netflix" "Product Manager" 0).1
     (by decide),
   ((filterCandidateServices_spec qualifiedProfile "Netflix" "Product Manager" 0).2
     (by decide) (by decide)).trans (by decide)⟩

/-- Claim C7: the role "product manager" expands to its static synonym set,
and any role matching no entry of the synonym table (neither key nor
variation occurs in the lowercased role) falls back to the literal role
string alone. -/
theorem getRoleVariations_spec (role : String)
    (h : roleMap.all (fun kv => !(strIncludes (lowerStr role) kv.1 ||
        kv.2.any (fun v => strIncludes (lowerStr role) v))) = true) :
    getRoleVariations "product manager" =
      ["product manager", "pm", "product lead", "product owner"] ∧
    getRoleVariations role = [role] := by
  refine ⟨by decide, ?_⟩
  have hn : roleMap.find? (fun kv =>
      strIncludes (lowerStr role) kv.1 ||
      kv.2.any (fun v => strIncludes (lowerStr role) v)) = none := by
    apply List.find?_eq_none.mpr
    intro kv hkv
    have h2 := List.all_eq_true.mp h kv hkv
    simp only [Bool.not_eq_true'] at h2
    simp [h2]
  simp only [getRoleVariations, hn]

/-- Claim C7 witness: the role "ceo" appears in no table entry and expands
to itself alone. -/
theorem getRoleVariations_spec_witness :
    roleMap.all (fun kv => !(strIncludes (lowerStr "ceo") kv.1 ||
        kv.2.any (fun v => strIncludes (lowerStr "ceo") v))) = true ∧
    getRoleVariations "ceo" = ["ceo"] :=
  ⟨by decide, (getRoleVariations_spec "ceo" (by decide)).2⟩

/-- Claim C2 counterexample: the same username twice in the search results
is fetched twice — the trace of the run records two profile-fetch calls for
"kim" and two skip entries are accumulated, refuting at-most-one
processing per distinct username. -/
theorem duplicate_username_fetched_twice :
    bookCallsForUser ⟨fun _ => none, fun _ _ _ _ => none⟩ sampleOptions
        [kimExpert, kimExpert] =
      ⟨0, [],
       [⟨"kim", "Failed to fetch profile"⟩, ⟨"kim", "Failed to fetch profile"⟩],
       ["kim", "kim"]⟩ := by
  decide

/-- Claim C2 amended: `bookCallsForUser` performs no deduplication by
username — whenever the target is at least one call and no booking attempt
succeeds, exactly one profile fetch is made per search-result entry, in
input order, so a username appearing twice is fetched and attempted
twice. -/
theorem bookCalls_no_dedup (env : OrchestratorEnv) (options : BookingOptions)
    (searchResults : List Expert)
    (hN : 1 ≤ options.num_calls)
    (hA : ∀ e p s a, env.attempt e p s a = none) :
    (bookCallsForUser env options searchResults).trace =
      searchResults.map (fun e => e.username) := by
  have h := runFrom_all_attempts_fail env options hA searchResults ⟨0, [], [], []⟩
    (Nat.lt_of_lt_of_le Nat.zero_lt_one hN)
  exact h.1

/-- Claim C2 amended witness: two occurrences of the username "ana" give
two profile fetches. -/
theorem bookCalls_no_dedup_witness :
    (bookCallsForUser ⟨fun _ => none, fun _ _ _ _ => none⟩ sampleOptions
        [⟨"ana", "https://topmate.io/ana", "Ana", ""⟩,
         ⟨"ana", "https://topmate.io/ana", "Ana", ""⟩]).trace = ["ana", "ana"] :=
  (bookCalls_no_dedup ⟨fun _ => none, fun _ _ _ _ => none⟩ sampleOptions
    [⟨"ana", "https://topmate.io/ana", "Ana", ""⟩,
     ⟨"ana", "https://topmate.io/ana", "Ana", ""⟩]
    (by decide) (fun _ _ _ _ => rfl)).trans (by decide)

/-- Claim C3 counterexample: a candidate that reaches the booking attempt
(profile fetched, a qualifying service exists) whose attempt fails leaves
the error list empty — no skip entry records the failure, refuting the
claimed skip entry with a specific reason. -/
theorem attempt_failure_leaves_no_skip_entry :
    filterCandidateServices qualifiedProfile "Netflix" "Product Manager" 0 =
      [⟨1, "Intro Call", 0, "USD", "video meeting", some 30⟩] ∧
    bookCallsForUser ⟨fun _ => some qualifiedProfile, fun _ _ _ _ => none⟩
        sampleOptions [kimExpert] =
      ⟨0, [], [], ["kim"]⟩ := by
  constructor
  · decide
  · decide

/-- Claim C3 amended: when the booking attempt of a candidate fails (navigation
failure, no slot in availability or submission failure — every path by
which `attemptBooking` yields null), the loop does continue with the
remaining candidates, but no skip entry is appended: the error list,
booking list and booked count are unchanged; only profile-fetch failures
and missing qualifying services produce skip entries. -/
theorem attempt_failure_continues_without_skip (env : OrchestratorEnv)
    (options : BookingOptions) (st : RunState) (e : Expert) (rest : List Expert)
    (p : TopmateUserProfile) (s : QualService) (ss : List QualService)
    (hb : st.booked < options.num_calls)
    (hf : env.fetchProfile e.username = some p)
    (hq : filterCandidateServices p options.target_company options.target_role
        options.max_price = s :: ss)
    (ha : env.attempt e p s options.availability = none) :
    runFrom env options st (e :: rest) =
      runFrom env options { st with trace := st.trace ++ [e.username] } rest := by
  rw [runFrom, List.foldl_cons]
  have hpe : processExpert env options st e =
      { st with trace := st.trace ++ [e.username] } := by
    unfold processExpert
    rw [if_neg (Nat.not_le.mpr hb), hf]
    simp only [hq, ha]
  rw [hpe]
  rfl

/-- Claim C3 amended witness: the failed attempt for "kim" leaves state
untouched apart from the fetch trace, and the loop goes on (here with an
empty remainder). -/
theorem attempt_failure_continues_without_skip_witness :
    runFrom ⟨fun _ => some qualifiedProfile, fun _ _ _ _ => none⟩ sampleOptions
        ⟨0, [], [], []⟩ [kimExpert] =
      runFrom ⟨fun _ => some qualifiedProfile, fun _ _ _ _ => none⟩ sampleOptions
        ⟨0, [], [], ["kim"]⟩ [] :=
  attempt_failure_continues_without_skip
    ⟨fun _ => some qualifiedProfile, fun _ _ _ _ => none⟩ sampleOptions
    ⟨0, [], [], []⟩ kimExpert []
    qualifiedProfile ⟨1, "Intro Call", 0, "USD", "video meeting", some 30⟩ []
    (by decide) rfl (by decide) rfl

/-- Claim C4 counterexample: a criteria-mismatch profile and a
matched-but-no-affordable-live-service profile produce identical
qualification results (the empty list), and the orchestrator records the
same single skip reason for both — the result does not distinguish the two
failure modes. -/
theorem qualification_failures_indistinguishable :
    companyMatch mismatchProfile "Netflix" = false ∧
    (companyMatch docOnlyProfile "Netflix" = true ∧
      roleMatch docOnlyProfile "Product Manager" = true ∧
      docOnlyProfile.services = [⟨5, "Doc Review", 0, "USD", "document", none⟩]) ∧
    filterCandidateServices mismatchProfile "Netflix" "Product Manager" 0 =
      filterCandidateServices docOnlyProfile "Netflix" "Product Manager" 0 ∧
    (bookCallsForUser ⟨fun _ => some mismatchProfile, fun _ _ _ _ => none⟩
        sampleOptions [⟨"bob", "https://topmate.io/bob", "Bob", ""⟩]).errors =
      [⟨"bob", "No qualifying services found"⟩] ∧
    (bookCallsForUser ⟨fun _ => some docOnlyProfile, fun _ _ _ _ => none⟩
        sampleOptions [⟨"bob", "https://topmate.io/bob", "Bob", ""⟩]).errors =
      [⟨"bob", "No qualifying services found"⟩] := by
  decide

/-- Claim C4 amended: every qualification failure — criteria mismatch as
well as no service passing the price/type filter — yields the same empty
service list, so the orchestrator cannot tell the two failure reasons apart
and reports the one reason "No qualifying services found" for both. -/
theorem qualification_failure_empty (p : TopmateUserProfile) (c r : String) (m : Int)
    (h : companyMatch p c = false ∨ roleMatch p r = false ∨
      p.services.filter (serviceQualifies m) = []) :
    filterCandidateServices p c r m = [] := by
  unfold filterCandidateServices
  rcases h with h | h | h
  · rw [h]; rfl
  · rw [h]; cases companyMatch p c <;> rfl
  · cases hc : companyMatch p c <;> cases hr : roleMatch p r <;> simp [h]

/-- Claim C4 amended witness: the criteria-mismatch profile yields the
empty list. -/
theorem qualification_failure_empty_witness :
    companyMatch mismatchProfile "Netflix" = false ∧
    filterCandidateServices mismatchProfile "Netflix" "Product Manager" 0 = [] :=
  ⟨by decide,
   qualification_failure_empty mismatchProfile "Netflix" "Product Manager" 0
     (Or.inl (by decide))⟩

/-- Claim C8 (against the spec-modelled TimeResolver): for a window with
start strictly before end, an instant whose local rendering in the
timezone falls on a listed day exactly at the start minute is within the
window, and one exactly at the end minute is not — the interval is
half-open. -/
theorem withinWindow_halfOpen_boundary (w : AvailabilityWindow) (i1 i2 : Instant)
    (hlt : parseHM w.start < parseHM w.endTime)
    (hd1 : w.days.contains (i1 w.timezone).day = true)
    (ht1 : (i1 w.timezone).minutes = parseHM w.start)
    (hd2 : w.days.contains (i2 w.timezone).day = true)
    (ht2 : (i2 w.timezone).minutes = parseHM w.endTime) :
    isInstantWithinAnyWindow i1 [w] = true ∧
    isInstantWithinAnyWindow i2 [w] = false := by
  constructor
  · simp only [isInstantWithinAnyWindow, List.any_cons, List.any_nil,
      isInstantWithinWindow, hd1, ht1, Bool.or_false, Bool.true_and]
    simp [Nat.le_refl, hlt]
  · simp only [isInstantWithinAnyWindow, List.any_cons, List.any_nil,
      isInstantWithinWindow, hd2, ht2, Bool.or_false, Bool.true_and]
    simp [Nat.lt_irrefl]

/-- Claim C8 witness: a Monday 09:00–17:00 UTC window, with instants at
exactly 09:00 and exactly 17:00 on a Monday. -/
theorem withinWindow_halfOpen_boundary_witness :
    isInstantWithinAnyWindow (fun _ => ⟨"Mon", 540⟩)
      [⟨["Mon"], "09:00", "17:00", "UTC"⟩] = true ∧
    isInstantWithinAnyWindow (fun _ => ⟨"Mon", 1020⟩)
      [⟨["Mon"], "09:00", "17:00", "UTC"⟩] = false :=
  withinWindow_halfOpen_boundary ⟨["Mon"], "09:00", "17:00", "UTC"⟩
    (fun _ => ⟨"Mon", 540⟩) (fun _ => ⟨"Mon", 1020⟩)
    (by decide) (by decide) (by decide) (by decide) (by decide)

/-- Claim C9 counterexample: a request whose only availability window has
start 17:00 and end 09:00 (start greater than end) passes
`BookingRequestSchema` validation, and the handler proceeds to the run —
the trace records a profile-fetch external call — instead of rejecting the
request with a validation error. -/
theorem schema_accepts_inverted_window :
    validBookingRequest ⟨"Netflix", "Product Manager", 1, 0,
        [⟨["Mon"], "17:00", "09:00", "UTC"⟩]⟩ = true ∧
    parseHM "09:00" < parseHM "17:00" ∧
    handleBookingRequest ⟨fun _ => none, fun _ _ _ _ => none⟩ [kimExpert]
        ⟨"Netflix", "Product Manager", 1, 0, [⟨["Mon"], "17:00", "09:00", "UTC"⟩]⟩ =
      .run ⟨0, [], [⟨"kim", "Failed to fetch profile"⟩], ["kim"]⟩ := by
  decide

/-- Claim C9 amended: the handler rejects requests failing the schema —
empty company or role, zero calls, negative max price, empty availability,
or any window with a malformed time-of-day string or an invalid day name —
with a structured validation error and without starting the run (so before
any external call); the schema does not compare start against end. -/
theorem handler_rejects_malformed (env : OrchestratorEnv)
    (searchResults : List Expert) (r : BookingOptions)
    (h : r.target_company.length = 0 ∨ r.target_role.length = 0 ∨
      r.num_calls = 0 ∨ r.max_price < 0 ∨ r.availability = [] ∨
      ∃ w ∈ r.availability, isTimeFormat w.start = false ∨
        isTimeFormat w.endTime = false ∨ ∃ d ∈ w.days, isValidDay d = false) :
    handleBookingRequest env searchResults r = .validationError := by
  have hv : validBookingRequest r = false := by
    unfold validBookingRequest
    rcases h with h | h | h | h | h | ⟨w, hw, hcase⟩
    · simp [h]
    · simp [h]
    · simp [h]
    · simp [h, Int.not_le.mpr h]
    · simp [h]
    · have hwin : validWindow w = false := by
        unfold validWindow
        rcases hcase with h1 | h1 | ⟨d, hd, h1⟩
        · simp [h1]
        · simp [h1]
        · have hda2 : w.days.all isValidDay = false := by
            cases hda : w.days.all isValidDay with
            | false => rfl
            | true => exact absurd (List.all_eq_true.mp hda d hd) (by simp [h1])
          simp [hda2]
      have : r.availability.all validWindow = false := by
        cases hva : r.availability.all validWindow with
        | false => rfl
        | true => exact absurd (List.all_eq_true.mp hva w hw) (by simp [hwin])
      simp [this]
  unfold handleBookingRequest
  rw [hv]
  rfl

/-- Claim C9 amended witness: the empty-availability request is rejected. -/
theorem handler_rejects_malformed_witness :
    handleBookingRequest ⟨fun _ => none, fun _ _ _ _ => none⟩ []
        ⟨"Netflix", "Product Manager", 1, 0, []⟩ = .validationError :=
  handler_rejects_malformed ⟨fun _ => none, fun _ _ _ _ => none⟩ []
    ⟨"Netflix", "Product Manager", 1, 0, []⟩
    (Or.inr (Or.inr (Or.inr (Or.inr (Or.inl rfl)))))
